import Mathlib

/-!
Shallow embedding of the vulnerability-data aggregation engine
(DefectDojo client: pagination, schema validation, findings cache,
entity resolution, and the aggregation analytics), together with
theorems settling the specification claims about it.

JavaScript numbers are modelled as rationals, JSON values as an
inductive type, and `undefined`/`null` cell contents as `Option`
(absence and null are collapsed where the code treats them alike).
-/

namespace Studio

/-- JSON values as delivered by the upstream REST API. -/
inductive Json where
  | null : Json
  | bool (b : Bool) : Json
  | num (q : ℚ) : Json
  | str (s : String) : Json
  | arr (xs : List Json) : Json
  | obj (fields : List (String × Json)) : Json

/-- Property access `o[k]` on a JSON object: first field with the key, else absent. -/
def getField (fields : List (String × Json)) (k : String) : Option Json :=
  (fields.find? (fun p => p.1 = k)).map (fun p => p.2)

/-- A pair of a numeric `id` and a `name`, the shape shared by products,
test types and similar upstream entities. -/
structure IdName where
  id : ℚ
  name : String
deriving DecidableEq, Repr

/-- The union-typed `product` field of an engagement: nested object or bare id. -/
inductive ProdOrId where
  | obj (p : IdName) : ProdOrId
  | ref (q : ℚ) : ProdOrId
deriving DecidableEq, Repr

/-- An engagement record (`EngagementSchema`). -/
structure Engagement where
  id : ℚ
  name : String
  product : Option ProdOrId
  product_id : Option ℚ
deriving DecidableEq, Repr

/-- The union-typed `engagement` field of a test: nested object or bare id. -/
inductive EngOrId where
  | eng (e : Engagement) : EngOrId
  | ref (q : ℚ) : EngOrId
deriving DecidableEq, Repr

/-- A test record (`TestObjectSchema`). -/
structure TestObject where
  id : ℚ
  test_type : Option IdName
  engagement : Option EngOrId
deriving DecidableEq, Repr

/-- The union-typed `test` field of a finding: nested object or bare id. -/
inductive TestOrId where
  | obj (t : TestObject) : TestOrId
  | ref (q : ℚ) : TestOrId
deriving DecidableEq, Repr

/-- The `cvssv3_score` field: `z.union([z.string(), z.number()])`. -/
inductive CvssVal where
  | ofStr (s : String) : CvssVal
  | ofNum (q : ℚ) : CvssVal
deriving DecidableEq, Repr

/-- A validated finding, the parse result of `FindingSchema`.
Absent and null optional fields are both modelled as `none`. -/
structure Finding where
  id : ℚ
  title : String
  severity : String
  description : String
  mitigation : Option String
  active : Bool
  cwe : Option ℚ
  cve : Option String
  cvssv3_score : Option CvssVal
  test : Option TestOrId
  component_name : Option String
  date : Option String
deriving DecidableEq, Repr

/-! ### Zod-style field extractors

Each mirrors a zod combinator: a required typed field fails on absence or
a type mismatch; `.nullable()` additionally accepts null; `.optional()`
additionally accepts absence. -/

/-- `z.number()` on a required field. -/
def asNum : Option Json → Option ℚ
  | some (Json.num q) => some q
  | _ => none

/-- `z.string()` on a required field. -/
def asStr : Option Json → Option String
  | some (Json.str s) => some s
  | _ => none

/-- `z.boolean()` on a required field. -/
def asBool : Option Json → Option Bool
  | some (Json.bool b) => some b
  | _ => none

/-- `z.number().nullable()`: number or null (absence fails). -/
def asNumNullable : Option Json → Option (Option ℚ)
  | some (Json.num q) => some (some q)
  | some Json.null => some none
  | _ => none

/-- `z.string().nullable().optional()`: string, null, or absent. -/
def asStrOptNullable : Option Json → Option (Option String)
  | none => some none
  | some Json.null => some none
  | some (Json.str s) => some (some s)
  | _ => none

/-- `z.number().optional().nullable()`: number, null, or absent. -/
def asNumOptNullable : Option Json → Option (Option ℚ)
  | none => some none
  | some Json.null => some none
  | some (Json.num q) => some (some q)
  | _ => none

/-- `z.union([z.string(), z.number()]).nullable().optional()` for `cvssv3_score`. -/
def asCvss : Option Json → Option (Option CvssVal)
  | none => some none
  | some Json.null => some none
  | some (Json.str s) => some (some (CvssVal.ofStr s))
  | some (Json.num q) => some (some (CvssVal.ofNum q))
  | _ => none

/-- Apply an object parser to an `.optional().nullable()` field. -/
def asObjOptNullable (p : Json → Option α) : Option Json → Option (Option α)
  | none => some none
  | some Json.null => some none
  | some j => (p j).map some

/-- Parse `z.object( id: z.number(), name: z.string() )`. -/
def parseIdName (j : Json) : Option IdName :=
  match j with
  | Json.obj fs => do
    let i ← asNum (getField fs "id")
    let n ← asStr (getField fs "name")
    some ⟨i, n⟩
  | _ => none

/-- Parse the `EngagementSchema` of the cache variant: `id`, `name`, a
nested-object-only `product` (optional nullable) and `product_id`. -/
def parseEngagement (j : Json) : Option Engagement :=
  match j with
  | Json.obj fs => do
    let i ← asNum (getField fs "id")
    let n ← asStr (getField fs "name")
    let p ← asObjOptNullable parseIdName (getField fs "product")
    let pid ← asNumOptNullable (getField fs "product_id")
    some ⟨i, n, p.map ProdOrId.obj, pid⟩
  | _ => none

/-- Parse the `TestObjectSchema` of the cache variant: `id`, a nested
`test_type` and a nested `engagement`, both optional nullable. -/
def parseTestObject (j : Json) : Option TestObject :=
  match j with
  | Json.obj fs => do
    let i ← asNum (getField fs "id")
    let tt ← asObjOptNullable parseIdName (getField fs "test_type")
    let e ← asObjOptNullable parseEngagement (getField fs "engagement")
    some ⟨i, tt, e.map EngOrId.eng⟩
  | _ => none

/-- `FindingSchema.safeParse` of the findings-cache module: structural
validation of one raw record, `none` on any failed check. -/
def parseFinding (j : Json) : Option Finding :=
  match j with
  | Json.obj fs => do
    let i ← asNum (getField fs "id")
    let title ← asStr (getField fs "title")
    let sev ← asStr (getField fs "severity")
    let descr ← asStr (getField fs "description")
    let mit ← asStrOptNullable (getField fs "mitigation")
    let act ← asBool (getField fs "active")
    let cwe ← asNumNullable (getField fs "cwe")
    let cve ← asStrOptNullable (getField fs "cve")
    let cvss ← asCvss (getField fs "cvssv3_score")
    let t ← asObjOptNullable parseTestObject (getField fs "test")
    some ⟨i, title, sev, descr, mit, act, cwe, cve, cvss,
          t.map TestOrId.obj, none, none⟩
  | _ => none

/-! ### CVSS normalization (`cvssToNumber`) -/

/-- Accumulate a run of decimal digits into a natural number. -/
def digitsToNat (l : List Char) : ℕ :=
  l.foldl (fun a c => a * 10 + (c.toNat - 48)) 0

/-- Model of JavaScript `parseFloat` on the simple numeral forms the code
receives: optional sign, integer digits, optional fraction digits; any
trailing garbage is ignored, and a string with no leading numeral is NaN
(`none`). The exponent form is not modelled. -/
def parseFloatQ (s : String) : Option ℚ :=
  let cs := s.toList
  let signAndRest : Bool × List Char :=
    match cs with
    | '-' :: rest => (true, rest)
    | '+' :: rest => (false, rest)
    | _ => (false, cs)
  let neg := signAndRest.1
  let body := signAndRest.2
  let intPart := body.takeWhile Char.isDigit
  let afterInt := body.dropWhile Char.isDigit
  let fracPart : List Char :=
    match afterInt with
    | '.' :: r => r.takeWhile Char.isDigit
    | _ => []
  if intPart.isEmpty ∧ fracPart.isEmpty then none
  else
    let mag : ℚ := (digitsToNat intPart : ℚ) +
      (digitsToNat fracPart : ℚ) / ((10 : ℚ) ^ fracPart.length)
    some (if neg then -mag else mag)

/-- `cvssToNumber`: numbers pass through, strings go through `parseFloat`
with NaN collapsed to 0, null/undefined become 0. -/
def cvssToNumber : Option CvssVal → ℚ
  | some (CvssVal.ofNum q) => q
  | some (CvssVal.ofStr s) => (parseFloatQ s).getD 0
  | none => 0

/-! ### Static alias tables (`defectdojo-maps`) -/

/-- `PRODUCT_MAP`: the hardcoded product alias table, in source order.
Keys are the user-friendly aliases, values the upstream id/name pairs. -/
def PRODUCT_MAP : List (String × IdName) := [
  ("accurhythm_zelda_ai", ⟨7, "AccuRhythm Zelda AI"⟩),
  ("azure_astra", ⟨18, "Azure Astra"⟩),
  ("clem", ⟨10, "CLEM"⟩),
  ("carelink_network", ⟨1, "Carelink Network"⟩),
  ("dlut", ⟨5, "Device Lookup Tool(DLUT)"⟩),
  ("evicd", ⟨17, "EVICD"⟩),
  ("linq_mobile_manager", ⟨9, "Linq Mobile Manager"⟩),
  ("mclh", ⟨11, "MCLH"⟩),
  ("mcls", ⟨3, "MCLS"⟩),
  ("mas", ⟨6, "Medtronic Application Services(MAS)"⟩),
  ("mlife", ⟨19, "Mlife"⟩),
  ("mycarelink_relay", ⟨4, "MyCareLink Relay"⟩),
  ("mycarelink_patient_monitor", ⟨2, "MyCareLink_Patient_Monitor"⟩),
  ("patient_connector_24965", ⟨16, "Patient Connector 24965"⟩),
  ("patient_connector_24967", ⟨14, "Patient Connector 24967"⟩),
  ("patient_messaging", ⟨8, "Patient Messaging"⟩),
  ("smart_reader_25000", ⟨15, "Smart Reader 25000"⟩),
  ("smart_sync", ⟨12, "Smart Sync"⟩),
  ("smart_sync_base", ⟨13, "Smart Sync Base"⟩)]

/-- `KNOWN_COMPONENTS` before the module-initialization sort, in source order. -/
def KNOWN_COMPONENTS_raw : List String := [
  "openssl", "libssl", "gnutls", "mbedTLS", "wolfssl",
  "log4j", "logback", "spring-core", "spring-security", "hibernate",
  "jackson-databind", "commons-fileupload", "commons-collections",
  "struts2", "junit", "bouncycastle",
  "flask", "django", "numpy", "pandas", "requests", "pyyaml", "jinja2",
  "sqlalchemy", "cryptography", "python",
  "jquery", "lodash", "moment.js", "angular", "react", "vue",
  "handlebars", "bootstrap", "express", "axios", "socket.io", "crypto-js",
  "laravel", "symfony", "phpmailer", "twig", "codeigniter",
  "zlib", "libxml2", "curl", "libpng", "glibc", "go", "golang",
  "mysql-connector", "psycopg2", "mongoose", "sqlite", "knex.js", "typeorm",
  "nginx", "apache", "tomcat", "httpd", "istio", "haproxy",
  "tensorflow", "pytorch", "scikit-learn", "keras", "xgboost",
  "aws-sdk", "google-cloud-storage", "azure-core", "boto3",
  "docker", "kubernetes", "helm", "jenkins", "terraform", "ansible",
  "libtommath"]

/-- `KNOWN_COMPONENTS` after the in-place stable sort by length descending
(`sort((a, b) => b.length - a.length)`). JavaScript `Array.prototype.sort`
is stable, and the stable sort of a list under a total preorder is unique,
so the (stable) insertion sort models it exactly. -/
def KNOWN_COMPONENTS : List String :=
  List.insertionSort (fun a b => b.length ≤ a.length) KNOWN_COMPONENTS_raw

/-! ### Paginator (`defectDojoFetchAll`, defectdojo.ts)

The upstream server is modelled as a partial map from endpoint URL to
payload; `none` models a transport failure (non-2xx / network error),
which the paginator propagates by aborting the whole fetch. -/

/-- One upstream response: the bare-array shape, or the
results/next envelope. In the envelope the `results` key is present with
an array value, and `next` is `none` when the key is absent or null —
the loop condition treats the two alike. -/
inductive Payload where
  | bare (rs : List Json) : Payload
  | env (results : List Json) (next : Option String) : Payload

/-- The record list of a page (`Array.isArray(data) ? data : data.results`). -/
def pageRecords : Payload → List Json
  | Payload.bare rs => rs
  | Payload.env rs _ => rs

/-- The next-link of a page: a bare array has no `next` property. -/
def pageNext : Payload → Option String
  | Payload.bare _ => none
  | Payload.env _ nxt => nxt

/-- The fetch loop of `defectDojoFetchAll`, with fuel standing in for the
unbounded `while`, an accumulator for the collected records, and a log of
every URL handed to the transport client. `none` is a transport failure
(or fuel exhaustion on a cyclic server). -/
def fetchAllGo (srv : String → Option Payload) :
    ℕ → String → List Json → List String → Option (List Json × List String)
  | 0, _, _, _ => none
  | fuel + 1, url, acc, called =>
    match srv url with
    | none => none
    | some page =>
      let rs := pageRecords page
      let acc2 := if 0 < rs.length then acc ++ rs else acc
      match pageNext page with
      | some nxt => fetchAllGo srv fuel nxt acc2 (called ++ [url])
      | none => some (acc2, called ++ [url])

/-- `defectDojoFetchAll(initialEndpoint)`: run the loop from the initial
endpoint with empty accumulators. -/
def defectDojoFetchAll (srv : String → Option Payload) (fuel : ℕ)
    (initial : String) : Option (List Json × List String) :=
  fetchAllGo srv fuel initial [] []

/-- A well-formed paginated response sequence: each listed URL resolves to
its page, every page but the last points at the following URL, and the
last page has a null or absent next link. -/
def chainOk (srv : String → Option Payload) :
    List String → List Payload → Prop
  | [u], [p] => srv u = some p ∧ pageNext p = none
  | u :: u2 :: us, p :: ps =>
      srv u = some p ∧ pageNext p = some u2 ∧ chainOk srv (u2 :: us) ps
  | _, _ => False

/-! ### Findings cache (`getCachedAllFindings`, findings-cache module) -/

/-- The module-level cache cell: the validated findings and the timestamp
of the last refresh (milliseconds). -/
structure FindingsCache where
  findings : List Finding
  lastFetched : ℤ
deriving DecidableEq, Repr

/-- The cache TTL: 5 minutes in milliseconds. -/
def cacheTtl : ℤ := 5 * 60 * 1000

/-- The staleness test at the top of the cache read:
`findings.length > 0 && now - lastFetched < ttl`. -/
def cacheHit (st : FindingsCache) (now : ℤ) : Bool :=
  decide (0 < st.findings.length) && decide (now - st.lastFetched < cacheTtl)

/-- Run the schema validator over a raw batch, keeping the successes. -/
def validateAll (raw : List Json) : List Finding :=
  raw.filterMap parseFinding

/-- The number of records of a raw batch that fail schema validation
(the length of the aggregated `parsingErrors` list). -/
def validationFailureCount (raw : List Json) : ℕ :=
  raw.countP (fun j => (parseFinding j).isNone)

/-- The observable outcome of one cache read: the returned collection, the
cache afterwards, whether an upstream paginated fetch was issued, and the
validation-failure count logged during the refresh. -/
structure CacheReadResult where
  returned : List Finding
  cache : FindingsCache
  fetched : Bool
  validationFailures : ℕ
deriving DecidableEq, Repr

/-- `getCachedAllFindings`, with the state threaded explicitly: `st` is the
cache cell before the call, `now` the clock reading, and `raw` the batch
the paginator would deliver for the fixed active/non-duplicate endpoint.
On a hit the cached collection is returned unchanged with no fetch; on a
miss the raw batch is fetched, validated record by record, and the cache
contents and timestamp are replaced wholesale. -/
def getCachedAllFindings (st : FindingsCache) (now : ℤ) (raw : List Json) :
    CacheReadResult :=
  if cacheHit st now then
    ⟨st.findings, st, false, 0⟩
  else
    let parsed := validateAll raw
    ⟨parsed, ⟨parsed, now⟩, true, validationFailureCount raw⟩

/-! ### String utilities shared by the resolver and the matchers

All upstream names and component tokens are ASCII, so the JavaScript
`toLowerCase` is modelled by ASCII case folding. -/

/-- ASCII lower-casing of one character. -/
def toLowerChar (c : Char) : Char :=
  if 'A' ≤ c ∧ c ≤ 'Z' then Char.ofNat (c.toNat + 32) else c

/-- `String.prototype.toLowerCase` over the character list. -/
def lowerChars (s : String) : List Char :=
  s.toList.map toLowerChar

/-- `String.prototype.toLowerCase` as a string. -/
def lowerS (s : String) : String :=
  String.mk (lowerChars s)

/-- Leading/trailing-whitespace strip (`String.prototype.trim`). -/
def jsTrim (s : String) : String :=
  let cs := s.toList.dropWhile Char.isWhitespace
  String.mk ((cs.reverse.dropWhile Char.isWhitespace).reverse)

/-- The resolver normalization `trim().toLowerCase().replace(/[\s\-_]/g, '')`:
lower-case, then delete every whitespace, hyphen and underscore character
(the deletion subsumes the leading trim). -/
def normalizeName (s : String) : String :=
  String.mk ((lowerChars s).filter
    (fun c => !(c.isWhitespace || c = '-' || c = '_')))

/-- Substring search: does `text` contain `pat` as a contiguous run? -/
def containsSub (pat : List Char) : List Char → Bool
  | [] => pat.isEmpty
  | c :: rest => pat.isPrefixOf (c :: rest) || containsSub pat rest

/-- Case-insensitive containment, the semantics of the Django
`name__icontains` filter used by the live resolver query. -/
def containsCI (text pat : String) : Bool :=
  containsSub (lowerChars pat) (lowerChars text)

/-- Prefix match for an unescaped regex literal where `.` matches any
character (the only metacharacter occurring in the component names). -/
def patPrefix : List Char → List Char → Bool
  | [], _ => true
  | _ :: _, [] => false
  | p :: ps, t :: ts => (p = '.' || p = t) && patPrefix ps ts

/-- Search for an unescaped pattern anywhere in the text. -/
def patSearch (p : List Char) : List Char → Bool
  | [] => patPrefix p []
  | c :: rest => patPrefix p (c :: rest) || patSearch p rest

/-- `new RegExp(componentName, 'i').test(text)`: case-insensitive search of
the raw component name, `.` acting as a wildcard. -/
def regexTestCI (pat text : String) : Bool :=
  patSearch (lowerChars pat) (lowerChars text)

/-- JavaScript word character (`\w`): ASCII letter, digit or underscore. -/
def isWordChar (c : Char) : Bool :=
  c.isAlphanum || c = '_'

/-- Whether a word boundary follows the matched pattern occurrence. -/
def boundaryAfter : List Char → Bool
  | [] => true
  | c :: _ => !(isWordChar c)

/-- Scan for a `\b pat \b` occurrence; `prevOk` records whether the current
position sits at the start of the text or after a non-word character. All
component names begin and end with word characters, so the two boundary
assertions reduce to these neighbour tests. -/
def wbMatchAux (pat : List Char) : List Char → Bool → Bool
  | [], prevOk => prevOk && pat.isEmpty
  | c :: rest, prevOk =>
      (prevOk && pat.isPrefixOf (c :: rest) &&
        boundaryAfter ((c :: rest).drop pat.length)) ||
      wbMatchAux pat rest (!(isWordChar c))

/-- Case-insensitive word-boundary test, the semantics of the escaped
`\b…\b` regex in `extractComponentFromTitle`. -/
def wbMatch (comp text : String) : Bool :=
  wbMatchAux (lowerChars comp) (lowerChars text) true

/-- `extractComponentFromTitle`: first known component (longest names
first) matching the title at word boundaries, with `golang` canonicalized
to `go`; `unknown` when nothing matches. -/
def extractComponentFromTitle (title : String) : String :=
  match KNOWN_COMPONENTS.find? (fun comp => wbMatch comp title) with
  | some comp => if comp = "golang" then "go" else comp
  | none => "unknown"

/-- The derived component of a finding:
`f.component_name || extractComponentFromTitle(f.title) || 'unknown'`
with JavaScript truthiness (empty string falls through). -/
def componentOf (f : Finding) : String :=
  let a := f.component_name.getD ""
  if a ≠ "" then a
  else
    let b := extractComponentFromTitle f.title
    if b ≠ "" then b else "unknown"

/-! ### Entity resolver

The live product query is modelled by passing the upstream data in: for
`getProductInfoByName` the full product list that `products/?limit=1000`
would return, for `getProductIDByName` the list the `name__icontains`
filter is applied to. `none` models the fetch throwing, which both
functions catch and convert to a null result. -/

/-- `String(p.id) === lowerProductName` for an integral JavaScript number;
the upstream ids are integers, and a non-integral id never stringifies to
a normalized name in any case exercised here. -/
def idMatchesString (q : ℚ) (s : String) : Bool :=
  q.den = 1 && toString q.num = s

/-- The outcome of one resolution: the resolved product (if any) and
whether the API was queried. -/
structure ResolveOutcome where
  result : Option IdName
  networkUsed : Bool
deriving DecidableEq, Repr

/-- `getProductInfoByName` (query-filter module): one pass over the static
table comparing the lower-cased key and the normalized value name against
the normalized input; on a miss, fetch the full product list and take the
first entry whose normalized name or stringified id equals the input. -/
def getProductInfoByName (apiProducts : Option (List IdName))
    (productName : String) : ResolveOutcome :=
  let lower := normalizeName productName
  match PRODUCT_MAP.find? (fun p =>
      lowerS p.1 = lower || normalizeName p.2.name = lower) with
  | some p => ⟨some p.2, false⟩
  | none =>
    match apiProducts with
    | none => ⟨none, true⟩
    | some ps =>
      ⟨(ps.find? (fun p =>
          normalizeName p.name = lower || idMatchesString p.id lower)).map
        (fun p => ⟨p.id, p.name⟩), true⟩

/-- `getProductIDByName` (cache-analysis module): exact lower-cased
comparison against the static table keys and value names; on a miss, a
live `name__icontains` query, taking the first filtered product. -/
def getProductIDByName (apiProducts : Option (List IdName))
    (productName : String) : Option ℚ × Bool :=
  let lower := lowerS (jsTrim productName)
  match PRODUCT_MAP.find? (fun p =>
      p.1 = lower || lowerS p.2.name = lower) with
  | some p => (some p.2.id, false)
  | none =>
    match apiProducts with
    | none => (none, true)
    | some ps =>
      match ps.filter (fun p => containsCI p.name lower) with
      | [] => (none, true)
      | p :: _ => (some p.id, true)

/-! ### Risk aggregation (`getTopRiskyComponents`, `getComponentImpact`) -/

/-- Whether a finding matches a component in the risk analyses:
`pattern.test(title) || (description && pattern.test(description))`
with the unescaped case-insensitive pattern. -/
def matchesComponent (comp : String) (f : Finding) : Bool :=
  regexTestCI comp f.title ||
    (f.description ≠ "" && regexTestCI comp f.description)

/-- Total CVSS-weighted risk of a collection: the percentage denominator,
computed over every finding of the analyzed collection. -/
def totalCvssRisk (findings : List Finding) : ℚ :=
  (findings.map (fun f => cvssToNumber f.cvssv3_score)).sum

/-- CVSS-weighted risk of the findings matching one component. -/
def componentRisk (findings : List Finding) (comp : String) : ℚ :=
  totalCvssRisk (findings.filter (matchesComponent comp))

/-- `toFixed(1)` followed by `parseFloat`: round to one decimal place. -/
def round1 (q : ℚ) : ℚ :=
  ((round (10 * q) : ℤ) : ℚ) / 10

/-- One row of the top-risky-components report. -/
structure ComponentAnalysis where
  componentName : String
  vulnerabilityCount : ℕ
  criticalCount : ℕ
  highCount : ℕ
  riskReductionPercent : ℚ
deriving DecidableEq, Repr

/-- The per-component analysis row, built when the component has at least
one matching finding. -/
def mkComponentAnalysis (findings : List Finding) (totalRisk : ℚ)
    (comp : String) : Option ComponentAnalysis :=
  let compFindings := findings.filter (matchesComponent comp)
  if compFindings.isEmpty then none
  else
    some ⟨comp, compFindings.length,
      compFindings.countP (fun f => f.severity = "Critical"),
      compFindings.countP (fun f => f.severity = "High"),
      round1 (componentRisk findings comp / totalRisk * 100)⟩

/-- `getTopRiskyComponents(limit)`: per-component rows over the cached
collection, sorted by `riskReductionPercent` descending (the JavaScript
comparator `b.riskReductionPercent - a.riskReductionPercent`), truncated
to `limit`. The no-findings and zero-total-risk early returns yield an
empty report. -/
def getTopRiskyComponents (findings : List Finding) (limit : ℕ) :
    List ComponentAnalysis :=
  if findings.isEmpty then []
  else
    let totalRisk := totalCvssRisk findings
    if totalRisk = 0 then []
    else
      let analyses := KNOWN_COMPONENTS.filterMap
        (mkComponentAnalysis findings totalRisk)
      (List.insertionSort
        (fun a b => b.riskReductionPercent ≤ a.riskReductionPercent)
        analyses).take limit

/-- `getComponentImpact(componentName)` restricted to its reported numbers:
count, critical/high counts and the risk share of one component over the
cached collection (0 when the total risk is 0). -/
def getComponentImpact (findings : List Finding) (comp : String) :
    ComponentAnalysis :=
  let totalRisk := totalCvssRisk findings
  let compFindings := findings.filter (matchesComponent comp)
  ⟨comp, compFindings.length,
    compFindings.countP (fun f => f.severity = "Critical"),
    compFindings.countP (fun f => f.severity = "High"),
    if 0 < totalRisk then round1 (componentRisk findings comp / totalRisk * 100)
    else 0⟩

/-! ### `analyzeVulnerabilityData`: the `component_risk` analysis -/

/-- Set-or-increment on an insertion-ordered string-keyed count record
(`rec[k] = (rec[k] || 0) + 1`). -/
def bumpCount : List (String × ℕ) → String → List (String × ℕ)
  | [], k => [(k, 1)]
  | (k2, n) :: rest, k =>
      if k2 = k then (k2, n + 1) :: rest else (k2, n) :: bumpCount rest k

/-- Read a key of a count record, defaulting to 0 (`rec[k] || 0`). -/
def countAt (rec : List (String × ℕ)) (k : String) : ℕ :=
  ((rec.find? (fun p => p.1 = k)).map (fun p => p.2)).getD 0

/-- Record one finding under its component in the `componentVulns`
accumulator (insertion-ordered, as JavaScript object keys are). -/
def crIns : List (String × ℕ × List (String × ℕ)) → String → String →
    List (String × ℕ × List (String × ℕ))
  | [], comp, sev => [(comp, 1, [(sev, 1)])]
  | (c, n, svs) :: rest, comp, sev =>
      if c = comp then (c, n + 1, bumpCount svs sev) :: rest
      else (c, n, svs) :: crIns rest comp sev

/-- One row of the `component_risk` (and `product_risk`) report. -/
structure CompRiskEntry where
  name : String
  count : ℕ
  severities : List (String × ℕ)
  critical : ℕ
  high : ℕ
deriving DecidableEq, Repr

/-- The severity-count comparator of `component_risk` and `product_risk`:
critical count, then high count, then total count, each descending. -/
def sevCountCmp (a b : CompRiskEntry) : ℤ :=
  if b.critical ≠ a.critical then (b.critical : ℤ) - a.critical
  else if b.high ≠ a.high then (b.high : ℤ) - a.high
  else (b.count : ℤ) - a.count

/-- The sort relation induced by the comparator (`cmp a b ≤ 0` puts `a`
no later than `b`). -/
def sevCountLe (a b : CompRiskEntry) : Prop :=
  sevCountCmp a b ≤ 0

instance : DecidableRel sevCountLe := fun a b =>
  inferInstanceAs (Decidable (sevCountCmp a b ≤ 0))

/-- The `component_risk` branch of `analyzeVulnerabilityData`: group the
detailed findings by component (skipping `unknown`), derive critical and
high counts, sort by the severity-count comparator and truncate. -/
def componentRiskAnalysis (findings : List Finding) (limit : ℕ) :
    List CompRiskEntry :=
  let vulns := findings.foldl (fun acc f =>
    let comp := componentOf f
    if comp = "unknown" then acc else crIns acc comp f.severity) []
  let entries := vulns.map (fun e =>
    ⟨e.1, e.2.1, e.2.2, countAt e.2.2 "Critical", countAt e.2.2 "High"⟩)
  (List.insertionSort sevCountLe entries).take limit

/-! ### KPI dashboard: top vulnerable products (`getKpiData`) -/

/-- Truthiness of a possibly-absent string (empty string is falsy). -/
def strTruthy : Option String → Bool
  | some s => s ≠ ""
  | none => false

/-- `PRODUCT_ID_MAP[id]`: the reverse id-to-name map built by reducing
over the static table values, later entries overwriting earlier ones. -/
def PRODUCT_ID_MAP_lookup (q : ℚ) : Option String :=
  PRODUCT_MAP.foldl (fun acc p => if p.2.id = q then some p.2.name else acc) none

/-- `finding.test?.engagement?.product?.name` under optional chaining;
property access on a bare-id variant yields undefined. -/
def kpiRawProductName (f : Finding) : Option String :=
  match f.test with
  | some (TestOrId.obj t) =>
    match t.engagement with
    | some (EngOrId.eng e) =>
      match e.product with
      | some (ProdOrId.obj p) => some p.name
      | _ => none
    | _ => none
  | _ => none

/-- `finding.test?.engagement?.product_id` under optional chaining. -/
def kpiProductId (f : Finding) : Option ℚ :=
  match f.test with
  | some (TestOrId.obj t) =>
    match t.engagement with
    | some (EngOrId.eng e) => e.product_id
    | _ => none
  | _ => none

/-- The product name `getKpiData` files a finding under: the prefetched
nested name, with the static reverse map as fallback when that is falsy
and a truthy `product_id` is present; `none` when the result is falsy
(the finding is then skipped by the grouping). -/
def kpiProductName (f : Finding) : Option String :=
  let p1 := kpiRawProductName f
  let p2 :=
    if strTruthy p1 then p1
    else
      match kpiProductId f with
      | some pid => if pid ≠ 0 then PRODUCT_ID_MAP_lookup pid else p1
      | none => p1
  if strTruthy p2 then p2 else none

/-- The `productSummary` grouping of `getKpiData`: per-product running
totals, keys in first-encounter order. -/
def kpiProductTotals (findings : List Finding) : List (String × ℕ) :=
  findings.foldl (fun acc f =>
    match kpiProductName f with
    | some name => bumpCount acc name
    | none => acc) []

/-- `topVulnerableProducts`: the grouped totals stably sorted by the
comparator `b.vulnerabilities - a.vulnerabilities` (count descending) and
sliced to the first 5. Each pair is one `(product, vulnerabilities)` row. -/
def topVulnerableProducts (findings : List Finding) : List (String × ℕ) :=
  (List.insertionSort (fun a b => b.2 ≤ a.2) (kpiProductTotals findings)).take 5

/-! ### Query filter (`getFindings`, defectdojo.ts) -/

/-- `URLSearchParams.set`: replace the value in place, or append. -/
def setParam (ps : List (String × String)) (k v : String) :
    List (String × String) :=
  if ps.any (fun p => p.1 = k) then
    ps.map (fun p => if p.1 = k then (k, v) else p)
  else ps ++ [(k, v)]

/-- Collapse a falsy optional string (absent or empty) to `none`. -/
def optTruthy : Option String → Option String
  | some s => if s = "" then none else some s
  | none => none

/-- Stringify an integral JavaScript number (the ids used in queries). -/
def jsIntString (q : ℚ) : String :=
  toString q.num

/-- The parsed `getFindings` input after zod defaulting. -/
structure GetFindingsInput where
  productName : Option String
  severity : Option String
  active : Bool
  limit : ℕ
  toolName : Option String
  cve : Option String
  componentName : Option String
deriving Repr

/-- The query parameters `getFindings` sends, in insertion order; `none`
models the early `Product not found` return when a product name was given
but resolution failed. `productInfo` is the resolver outcome for the
given product name. -/
def buildFindingsQuery (input : GetFindingsInput)
    (productInfo : Option IdName) : Option (List (String × String)) :=
  let qp : List (String × String) :=
    [("duplicate", "false"),
     ("active", if input.active then "true" else "false"),
     ("limit", toString input.limit),
     ("prefetch", "test__test_type,test__engagement__product")]
  let qp := match optTruthy input.severity with
    | some s => setParam qp "severity__in" s
    | none => qp
  let qp := match optTruthy input.cve with
    | some c => setParam qp "cve" c
    | none => qp
  match optTruthy input.productName with
  | some _ =>
    match productInfo with
    | none => none
    | some info =>
      let qp := setParam qp "test__engagement__product" (jsIntString info.id)
      let qp := match optTruthy input.toolName with
        | some t => setParam qp "test__test_type__name" t
        | none => qp
      let qp := match optTruthy input.componentName with
        | some c => setParam qp "component_name" c
        | none => qp
      some qp
  | none =>
    let qp := match optTruthy input.toolName with
      | some t => setParam qp "test__test_type__name" t
      | none => qp
    let qp := match optTruthy input.componentName with
      | some c => setParam qp "component_name" c
      | none => qp
    some qp

/-- The displayed CVSS cell: the raw value, or `N/A` when falsy. -/
inductive CvssDisplay where
  | val (v : CvssVal) : CvssDisplay
  | na : CvssDisplay
deriving DecidableEq, Repr

/-- `f.cvssv3_score || 'N/A'`: 0 and the empty string are falsy. -/
def cvssDisplayOf : Option CvssVal → CvssDisplay
  | none => CvssDisplay.na
  | some (CvssVal.ofNum q) =>
      if q = 0 then CvssDisplay.na else CvssDisplay.val (CvssVal.ofNum q)
  | some (CvssVal.ofStr s) =>
      if s = "" then CvssDisplay.na else CvssDisplay.val (CvssVal.ofStr s)

/-- One finding row as `getFindings` emits it. -/
structure FindingView where
  id : ℚ
  title : String
  component : String
  product : String
  cve : String
  cwe : String
  cvssv3_score : CvssDisplay
  severity : String
  tool : String
  date : String
deriving DecidableEq, Repr

/-- The per-record projection inside `getFindings`: narrow the union-typed
`test`/`engagement` fields, resolve the displayed product (nested object,
then `product_id` against the product list, then the requested name with
id 0), and format the display cells. -/
def viewOf (requestedProductName : String) (allProducts : List IdName)
    (f : Finding) : FindingView :=
  let t : Option TestObject :=
    match f.test with
    | some (TestOrId.obj t) => some t
    | _ => none
  let e : Option Engagement :=
    match t with
    | some t =>
      match t.engagement with
      | some (EngOrId.eng e) => some e
      | _ => none
    | none => none
  let findingProduct : IdName :=
    match e with
    | some e =>
      match e.product with
      | some (ProdOrId.obj p) => ⟨p.id, p.name⟩
      | _ =>
        match e.product_id with
        | some pid =>
          if pid ≠ 0 then
            ((allProducts.find? (fun p => p.id = pid)).getD
              ⟨0, requestedProductName⟩)
          else ⟨0, requestedProductName⟩
        | none => ⟨0, requestedProductName⟩
    | none => ⟨0, requestedProductName⟩
  let testTypeName :=
    match t with
    | some t =>
      match t.test_type with
      | some tt => tt.name
      | none => "Unknown"
    | none => "Unknown"
  ⟨f.id, f.title, componentOf f, findingProduct.name,
    (optTruthy f.cve).getD "N/A",
    (match f.cwe with
     | some q => if q ≠ 0 then "CWE-" ++ jsIntString q else "Unknown"
     | none => "Unknown"),
    cvssDisplayOf f.cvssv3_score, f.severity, testTypeName,
    f.date.getD ""⟩

/-- The findings list `getFindings` returns: the upstream result records,
each projected, in upstream order. -/
def getFindingsViews (requestedProductName : String)
    (allProducts : List IdName) (results : List Finding) : List FindingView :=
  results.map (viewOf requestedProductName allProducts)

/-- The CVSS weight of a displayed row, for stating the ordering claim. -/
def viewCvssNum (v : FindingView) : ℚ :=
  match v.cvssv3_score with
  | CvssDisplay.na => 0
  | CvssDisplay.val w => cvssToNumber (some w)

/-- The emitted rows are in non-increasing CVSS order. -/
def cvssSortedDesc (vs : List FindingView) : Prop :=
  List.Chain' (fun a b => viewCvssNum b ≤ viewCvssNum a) vs

/-! ### `getVulnerabilityCountsByProduct` -/

/-- The count record all paths start from (and the failure value). -/
def zeroSevCounts : List (String × ℕ) :=
  [("Critical", 0), ("High", 0), ("Medium", 0), ("Low", 0),
   ("Info", 0), ("Total", 0)]

/-- Increment an existing key of a count record. -/
def incKey (counts : List (String × ℕ)) (k : String) : List (String × ℕ) :=
  counts.map (fun p => if p.1 = k then (p.1, p.2 + 1) else p)

/-- `getVulnerabilityCountsByProduct`, with the two effects passed in:
the resolver outcome for the product name and the fetched finding list
(`none` when the fetch throws). Unresolved products and transport
failures both return the zero record, as does a resolved product with no
findings. -/
def getVulnerabilityCountsByProduct (resolved : Option IdName)
    (fetched : Option (List Finding)) : List (String × ℕ) :=
  match resolved with
  | none => zeroSevCounts
  | some _ =>
    match fetched with
    | none => zeroSevCounts
    | some findings =>
      findings.foldl (fun counts f =>
        if counts.any (fun p => p.1 = f.severity) then
          incKey (incKey counts f.severity) "Total"
        else counts) zeroSevCounts

/-! ### Concurrency model for the cache read

The cache read is an async function: it runs synchronously from entry
through the staleness test up to issuing the paginated fetch, suspends at
the `await`, and resumes to validate and replace the cache. Interleavings
of several callers are modelled by sequences of these two atomic
segments. -/

/-- One atomic segment of one caller's cache read. -/
inductive CacheStep where
  | check (caller : ℕ) : CacheStep
  | complete (caller : ℕ) : CacheStep
deriving DecidableEq, Repr

/-- The shared state seen by concurrent cache readers: the cache cell and
the number of upstream paginated fetches issued so far. -/
structure ConcState where
  cache : FindingsCache
  now : ℤ
  fetchesIssued : ℕ
deriving DecidableEq, Repr

/-- Execute one segment. A `check` that hits the cache finishes that
caller with the cached snapshot; a miss issues that caller's own
paginated fetch. A `complete` installs the validated batch. -/
def concStep (raw : List Json) (s : ConcState) : CacheStep → ConcState
  | CacheStep.check _ =>
    if cacheHit s.cache s.now then s
    else { s with fetchesIssued := s.fetchesIssued + 1 }
  | CacheStep.complete _ =>
    { s with cache := ⟨validateAll raw, s.now⟩ }

/-- Run a schedule of segments over the shared state. -/
def runSchedule (raw : List Json) (steps : List CacheStep) (s : ConcState) :
    ConcState :=
  steps.foldl (concStep raw) s

/-! ### Shared lemmas and concrete test fixtures -/

/-- Splitting a validated batch: kept records plus failures cover it. -/
theorem length_filterMap_add_countP_isNone (f : α → Option β) (l : List α) :
    (l.filterMap f).length + l.countP (fun a => (f a).isNone) = l.length := by
  induction l with
  | nil => simp
  | cons a t ih =>
    cases h : f a <;>
      simp [List.filterMap_cons, h, List.countP_cons] <;> omega

/-- A minimal well-formed finding used by the cache fixtures. -/
def wFinding : Finding :=
  ⟨1, "w", "High", "", none, true, none, none, none, none, none, none⟩

/-- A well-formed raw record as the upstream delivers it. -/
def demoRaw (n : ℚ) : Json :=
  Json.obj [("id", Json.num n), ("title", Json.str "t"),
    ("severity", Json.str "High"), ("description", Json.str "d"),
    ("active", Json.bool true), ("cwe", Json.null)]

/-- A raw batch of 10 records of which the last 2 fail validation (one
lacks required fields, one is not an object). -/
def demoBatch : List Json :=
  [demoRaw 1, demoRaw 2, demoRaw 3, demoRaw 4, demoRaw 5, demoRaw 6,
   demoRaw 7, demoRaw 8, Json.obj [("id", Json.num 9)], Json.str "bad"]

/-- C1: a cache read inside the TTL with a populated cache returns the
cached collection unchanged and issues no upstream fetch; any other read
fetches, validates every raw record, replaces the whole contents and the
timestamp, and returns the new collection. -/
theorem cacheRead_ttl_spec (st : FindingsCache) (now : ℤ) (raw : List Json) :
    (st.findings ≠ [] → now - st.lastFetched < cacheTtl →
      getCachedAllFindings st now raw = ⟨st.findings, st, false, 0⟩) ∧
    (cacheHit st now = false →
      getCachedAllFindings st now raw =
        ⟨validateAll raw, ⟨validateAll raw, now⟩, true,
          validationFailureCount raw⟩) := by
  constructor
  · intro h1 h2
    have hh : cacheHit st now = true := by
      unfold cacheHit
      simp only [Bool.and_eq_true, decide_eq_true_eq]
      exact ⟨List.length_pos.mpr h1, h2⟩
    unfold getCachedAllFindings
    rw [if_pos hh]
  · intro h
    unfold getCachedAllFindings
    rw [if_neg (by simp [h])]

/-- Witness for C1: both branches at concrete states. -/
theorem cacheRead_ttl_spec_witness :
    (([wFinding] : List Finding) ≠ [] ∧ (1000 : ℤ) - 0 < cacheTtl ∧
      cacheHit ⟨[], 0⟩ 400000 = false) ∧
    getCachedAllFindings ⟨[wFinding], 0⟩ 1000 [] =
      ⟨[wFinding], ⟨[wFinding], 0⟩, false, 0⟩ ∧
    getCachedAllFindings ⟨[], 0⟩ 400000 [] =
      ⟨[], ⟨[], 400000⟩, true, 0⟩ := by
  refine ⟨⟨by decide, by decide, by decide⟩, ?_, ?_⟩
  · exact (cacheRead_ttl_spec ⟨[wFinding], 0⟩ 1000 []).1 (by decide) (by decide)
  · have h := (cacheRead_ttl_spec ⟨[], 0⟩ 400000 []).2 (by decide)
    simpa [validateAll, validationFailureCount] using h

/-- C5: a refresh never aborts on validation failures: exactly the
successfully validated records are stored and returned, and the failure
count is observable and complements the stored records. -/
theorem cacheRefresh_partial_validation (st : FindingsCache) (now : ℤ)
    (raw : List Json) (h : cacheHit st now = false) :
    (getCachedAllFindings st now raw).fetched = true ∧
    (getCachedAllFindings st now raw).cache.findings = validateAll raw ∧
    (getCachedAllFindings st now raw).returned = validateAll raw ∧
    (getCachedAllFindings st now raw).validationFailures =
      validationFailureCount raw ∧
    (getCachedAllFindings st now raw).cache.findings.length +
      (getCachedAllFindings st now raw).validationFailures = raw.length := by
  unfold getCachedAllFindings
  rw [if_neg (by simp [h])]
  refine ⟨rfl, rfl, rfl, rfl, ?_⟩
  exact length_filterMap_add_countP_isNone parseFinding raw

/-- Witness for C5: a batch of 10 raw records with 2 validation failures
leaves exactly 8 records in the cache and reports 2 failures. -/
theorem cacheRefresh_partial_validation_witness :
    cacheHit ⟨[], 0⟩ 0 = false ∧
    demoBatch.length = 10 ∧
    (getCachedAllFindings ⟨[], 0⟩ 0 demoBatch).cache.findings.length = 8 ∧
    (getCachedAllFindings ⟨[], 0⟩ 0 demoBatch).validationFailures = 2 := by
  have hmiss : cacheHit ⟨[], 0⟩ 0 = false := by decide
  have h := cacheRefresh_partial_validation ⟨[], 0⟩ 0 demoBatch hmiss
  refine ⟨hmiss, by decide, ?_, ?_⟩
  · rw [h.2.1]; decide
  · rw [h.2.2.2.1]; decide

/-- C9: the cache read has no singleflight: with a stale cache, the
interleaving in which both readers pass the staleness check before either
refresh lands issues two upstream paginated fetches, while the sequential
schedule issues one. -/
theorem concurrentReaders_two_fetches :
    (runSchedule [demoRaw 1] [CacheStep.check 1, CacheStep.check 2,
        CacheStep.complete 1, CacheStep.complete 2]
      ⟨⟨[], 0⟩, 0, 0⟩).fetchesIssued = 2 ∧
    (runSchedule [demoRaw 1] [CacheStep.check 1, CacheStep.complete 1,
        CacheStep.check 2, CacheStep.complete 2]
      ⟨⟨[], 0⟩, 0, 0⟩).fetchesIssued = 1 := by
  constructor <;> decide

/-- C10: `getVulnerabilityCountsByProduct` returns the all-zero count
record when the name does not resolve, when the upstream fetch throws,
and for a resolved product with no findings — the three cases are
indistinguishable and no error payload exists. -/
theorem vulnerabilityCounts_failure_shape :
    (∀ fetched, getVulnerabilityCountsByProduct none fetched = zeroSevCounts) ∧
    (∀ resolved, getVulnerabilityCountsByProduct resolved none = zeroSevCounts) ∧
    (∀ p, getVulnerabilityCountsByProduct (some p) (some []) = zeroSevCounts) := by
  refine ⟨fun _ => rfl, fun resolved => ?_, fun _ => rfl⟩
  cases resolved <;> rfl

/-! ### Concrete risk-analysis fixtures -/

/-- The sorted component dictionary, evaluated once for the fixtures. -/
theorem KNOWN_COMPONENTS_eval : KNOWN_COMPONENTS =
    ["google-cloud-storage", "commons-collections", "commons-fileupload",
     "jackson-databind", "spring-security", "mysql-connector", "bouncycastle",
     "cryptography", "scikit-learn", "spring-core", "codeigniter",
     "sqlalchemy", "handlebars", "tensorflow", "azure-core", "kubernetes",
     "libtommath", "hibernate", "moment.js", "bootstrap", "socket.io",
     "crypto-js", "phpmailer", "terraform", "requests", "psycopg2",
     "mongoose", "openssl", "mbedTLS", "wolfssl", "logback", "struts2",
     "angular", "express", "laravel", "symfony", "libxml2", "knex.js",
     "typeorm", "haproxy", "pytorch", "xgboost", "aws-sdk", "jenkins",
     "ansible", "libssl", "gnutls", "django", "pandas", "pyyaml", "jinja2",
     "python", "jquery", "lodash", "libpng", "golang", "sqlite", "apache",
     "tomcat", "docker", "log4j", "junit", "flask", "numpy", "react",
     "axios", "glibc", "nginx", "httpd", "istio", "keras", "boto3", "twig",
     "zlib", "curl", "helm", "vue", "go"] := by decide

/-- An openssl finding of severity High carrying 90 percent of the risk. -/
def cxFindingA : Finding :=
  ⟨1, "openssl problem", "High", "", none, true, none, none,
   some (CvssVal.ofNum 9), none, none, none⟩

/-- A curl finding of severity Critical carrying 10 percent of the risk. -/
def cxFindingB : Finding :=
  ⟨2, "curl problem", "Critical", "", none, true, none, none,
   some (CvssVal.ofNum 1), none, none, none⟩

theorem cx_total : totalCvssRisk [cxFindingA, cxFindingB] = 10 := by
  norm_num [totalCvssRisk, cvssToNumber, cxFindingA, cxFindingB]

theorem cx_filter_openssl :
    [cxFindingA, cxFindingB].filter (matchesComponent "openssl") =
      [cxFindingA] := by decide

theorem cx_mk_openssl :
    mkComponentAnalysis [cxFindingA, cxFindingB] 10 "openssl" =
      some ⟨"openssl", 1, 0, 1, 90⟩ := by
  simp only [mkComponentAnalysis, componentRisk, cx_filter_openssl]
  rw [if_neg (by decide)]
  refine congrArg some ?_
  have hcrit : List.countP (fun f => decide (f.severity = "Critical"))
      [cxFindingA] = 0 := by decide
  have hhigh : List.countP (fun f => decide (f.severity = "High"))
      [cxFindingA] = 1 := by decide
  have hrisk : totalCvssRisk [cxFindingA] = 9 := by
    norm_num [totalCvssRisk, cvssToNumber, cxFindingA]
  simp only [hcrit, hhigh, hrisk]
  norm_num [round1, round_ofNat]

theorem cx_filter_curl :
    [cxFindingA, cxFindingB].filter (matchesComponent "curl") =
      [cxFindingB] := by decide

theorem cx_mk_curl :
    mkComponentAnalysis [cxFindingA, cxFindingB] 10 "curl" =
      some ⟨"curl", 1, 1, 0, 10⟩ := by
  simp only [mkComponentAnalysis, componentRisk, cx_filter_curl]
  rw [if_neg (by decide)]
  refine congrArg some ?_
  have hcrit : List.countP (fun f => decide (f.severity = "Critical"))
      [cxFindingB] = 1 := by decide
  have hhigh : List.countP (fun f => decide (f.severity = "High"))
      [cxFindingB] = 0 := by decide
  have hrisk : totalCvssRisk [cxFindingB] = 1 := by
    norm_num [totalCvssRisk, cvssToNumber, cxFindingB]
  simp only [hcrit, hhigh, hrisk]
  norm_num [round1, round_ofNat]

/-- The components preceding openssl in the sorted dictionary. -/
def cxPre : List String :=
    ["google-cloud-storage", "commons-collections", "commons-fileupload",
     "jackson-databind", "spring-security", "mysql-connector", "bouncycastle",
     "cryptography", "scikit-learn", "spring-core", "codeigniter",
     "sqlalchemy", "handlebars", "tensorflow", "azure-core", "kubernetes",
     "libtommath", "hibernate", "moment.js", "bootstrap", "socket.io",
     "crypto-js", "phpmailer", "terraform", "requests", "psycopg2",
     "mongoose"]

/-- The components between openssl and curl in the sorted dictionary. -/
def cxMid : List String :=
    ["mbedTLS", "wolfssl", "logback", "struts2",
     "angular", "express", "laravel", "symfony", "libxml2", "knex.js",
     "typeorm", "haproxy", "pytorch", "xgboost", "aws-sdk", "jenkins",
     "ansible", "libssl", "gnutls", "django", "pandas", "pyyaml", "jinja2",
     "python", "jquery", "lodash", "libpng", "golang", "sqlite", "apache",
     "tomcat", "docker", "log4j", "junit", "flask", "numpy", "react",
     "axios", "glibc", "nginx", "httpd", "istio", "keras", "boto3", "twig",
     "zlib"]

/-- The components after curl in the sorted dictionary. -/
def cxPost : List String := ["helm", "vue", "go"]

theorem cx_split : KNOWN_COMPONENTS =
    cxPre ++ "openssl" :: (cxMid ++ "curl" :: cxPost) := by
  rw [KNOWN_COMPONENTS_eval]; rfl

theorem cx_analyses :
    KNOWN_COMPONENTS.filterMap
        (mkComponentAnalysis [cxFindingA, cxFindingB] 10) =
      [⟨"openssl", 1, 0, 1, 90⟩, ⟨"curl", 1, 1, 0, 10⟩] := by
  rw [cx_split, List.filterMap_append]
  have hpre : cxPre.filterMap
      (mkComponentAnalysis [cxFindingA, cxFindingB] 10) = [] := by
    rw [List.filterMap_eq_nil_iff]; decide
  have hmid : cxMid.filterMap
      (mkComponentAnalysis [cxFindingA, cxFindingB] 10) = [] := by
    rw [List.filterMap_eq_nil_iff]; decide
  have hpost : cxPost.filterMap
      (mkComponentAnalysis [cxFindingA, cxFindingB] 10) = [] := by
    rw [List.filterMap_eq_nil_iff]; decide
  rw [hpre, List.filterMap_cons, cx_mk_openssl, List.filterMap_append, hmid,
    List.filterMap_cons, cx_mk_curl, hpost]
  rfl

/-- Evaluation of the top-risky-components report on the fixture: the
all-High openssl row (share 90) sorts above the Critical curl row
(share 10). -/
theorem cx_topRisky_eval :
    getTopRiskyComponents [cxFindingA, cxFindingB] 5 =
      [⟨"openssl", 1, 0, 1, 90⟩, ⟨"curl", 1, 1, 0, 10⟩] := by
  simp only [getTopRiskyComponents]
  rw [if_neg (by decide), cx_total, if_neg (by norm_num), cx_analyses]
  simp only [List.insertionSort, List.orderedInsert]
  rw [if_pos (by norm_num)]
  rfl

/-! ### Comparator facts -/

theorem sevCountLe_trans (a b c : CompRiskEntry) :
    sevCountLe a b → sevCountLe b c → sevCountLe a c := by
  unfold sevCountLe sevCountCmp
  intro hab hbc
  split_ifs at hab hbc ⊢ <;> omega

theorem sevCountLe_total (a b : CompRiskEntry) :
    sevCountLe a b ∨ sevCountLe b a := by
  unfold sevCountLe sevCountCmp
  split_ifs <;> omega

/-- C2 counterexample: on the fixture collection, the top-risky-components
report puts the zero-critical openssl row before the one-critical curl
row, so the output is not ordered by critical count descending — risk
share is the primary sort key there. -/
theorem componentRisk_ordering_cx :
    getTopRiskyComponents [cxFindingA, cxFindingB] 5 =
      [⟨"openssl", 1, 0, 1, 90⟩, ⟨"curl", 1, 1, 0, 10⟩] ∧
    ¬ (getTopRiskyComponents [cxFindingA, cxFindingB] 5).Pairwise
        (fun a b => b.criticalCount ≤ a.criticalCount) := by
  refine ⟨cx_topRisky_eval, ?_⟩
  rw [cx_topRisky_eval]
  intro h
  have h1 := List.rel_of_pairwise_cons h (List.mem_singleton.mpr rfl)
  exact absurd h1 (by decide)

/-- C2 amended: the `component_risk` analysis ranks by critical count,
then high count, then total count, each descending; `getTopRiskyComponents`
instead ranks by the risk share percentage descending, which is its
primary (and only) sort key. -/
theorem componentRisk_ordering (findings : List Finding) (limit : ℕ) :
    (componentRiskAnalysis findings limit).Pairwise sevCountLe ∧
    (getTopRiskyComponents findings limit).Pairwise
      (fun a b => b.riskReductionPercent ≤ a.riskReductionPercent) := by
  constructor
  · haveI : IsTrans CompRiskEntry sevCountLe := ⟨sevCountLe_trans⟩
    haveI : IsTotal CompRiskEntry sevCountLe := ⟨sevCountLe_total⟩
    unfold componentRiskAnalysis
    exact List.Pairwise.sublist (List.take_sublist _ _)
      (List.sorted_insertionSort _ _)
  · haveI : IsTrans ComponentAnalysis
        (fun a b => b.riskReductionPercent ≤ a.riskReductionPercent) :=
      ⟨fun _ _ _ hab hbc => le_trans hbc hab⟩
    haveI : IsTotal ComponentAnalysis
        (fun a b => b.riskReductionPercent ≤ a.riskReductionPercent) :=
      ⟨fun _ _ => le_total _ _⟩
    simp only [getTopRiskyComponents]
    split_ifs
    · exact List.Pairwise.nil
    · exact List.Pairwise.nil
    · exact List.Pairwise.sublist (List.take_sublist _ _)
        (List.sorted_insertionSort _ _)

/-! ### Rounding facts -/

theorem round1_mono {p q : ℚ} (h : p ≤ q) : round1 p ≤ round1 q := by
  unfold round1
  have hr : round ((10:ℚ) * p) ≤ round ((10:ℚ) * q) := by
    rw [round_eq, round_eq]
    exact Int.floor_le_floor (by linarith)
  have h10 : (0:ℚ) < 10 := by norm_num
  rw [div_le_div_iff_of_pos_right h10]
  exact_mod_cast hr

theorem round1_bounds {q : ℚ} (h0 : 0 ≤ q) (h1 : q ≤ 100) :
    0 ≤ round1 q ∧ round1 q ≤ 100 := by
  have hz : round1 (0:ℚ) = 0 := by simp [round1]
  have hh : round1 (100:ℚ) = 100 := by
    rw [round1, show (10:ℚ) * 100 = 1000 by norm_num, round_ofNat]
    norm_num
  exact ⟨hz ▸ round1_mono h0, hh ▸ round1_mono h1⟩

/-- C6: with the CVSS weights nonnegative (scores are 0 to 10), every row
of the top-risky-components report has its risk share inside the 0 to 100
range, and the share of each row equals its component risk divided by the
independently computed total CVSS risk of the whole analyzed collection. -/
theorem riskShare_bounds (findings : List Finding) (limit : ℕ)
    (hpos : ∀ f ∈ findings, 0 ≤ cvssToNumber f.cvssv3_score) :
    ∀ c ∈ getTopRiskyComponents findings limit,
      (0 ≤ c.riskReductionPercent ∧ c.riskReductionPercent ≤ 100) ∧
      c.riskReductionPercent =
        round1 (componentRisk findings c.componentName /
          totalCvssRisk findings * 100) := by
  intro c hc
  simp only [getTopRiskyComponents] at hc
  by_cases h1 : findings.isEmpty = true
  · rw [if_pos h1] at hc
    exact absurd hc (List.not_mem_nil c)
  rw [if_neg h1] at hc
  by_cases h2 : totalCvssRisk findings = 0
  · rw [if_pos h2] at hc
    exact absurd hc (List.not_mem_nil c)
  rw [if_neg h2] at hc
  have hc2 : c ∈ KNOWN_COMPONENTS.filterMap
      (mkComponentAnalysis findings (totalCvssRisk findings)) :=
    (List.mem_insertionSort _).1 (List.mem_of_mem_take hc)
  obtain ⟨comp, hmem, hmk⟩ := List.mem_filterMap.1 hc2
  unfold mkComponentAnalysis at hmk
  by_cases h3 : (findings.filter (matchesComponent comp)).isEmpty = true
  · rw [if_pos h3] at hmk
    cases hmk
  rw [if_neg h3] at hmk
  injection hmk with h4
  subst h4
  refine ⟨?_, rfl⟩
  have htnn : 0 ≤ totalCvssRisk findings := by
    unfold totalCvssRisk
    apply List.sum_nonneg
    intro x hx
    obtain ⟨f, hf, rfl⟩ := List.mem_map.1 hx
    exact hpos f hf
  have htpos : 0 < totalCvssRisk findings := lt_of_le_of_ne htnn (Ne.symm h2)
  have hcompPos : 0 ≤ componentRisk findings comp := by
    unfold componentRisk totalCvssRisk
    apply List.sum_nonneg
    intro x hx
    obtain ⟨f, hf, rfl⟩ := List.mem_map.1 hx
    exact hpos f (List.mem_of_mem_filter hf)
  have hle : componentRisk findings comp ≤ totalCvssRisk findings := by
    unfold componentRisk totalCvssRisk
    apply List.Sublist.sum_le_sum
    · exact (List.filter_sublist _).map _
    · intro x hx
      obtain ⟨f, hf, rfl⟩ := List.mem_map.1 hx
      exact hpos f hf
  have hq0 : 0 ≤ componentRisk findings comp / totalCvssRisk findings * 100 :=
    mul_nonneg (div_nonneg hcompPos htnn) (by norm_num)
  have hq1 : componentRisk findings comp / totalCvssRisk findings * 100 ≤ 100 := by
    have hdiv : componentRisk findings comp / totalCvssRisk findings ≤ 1 :=
      (div_le_one htpos).mpr hle
    calc componentRisk findings comp / totalCvssRisk findings * 100
        ≤ 1 * 100 := mul_le_mul_of_nonneg_right hdiv (by norm_num)
      _ = 100 := one_mul 100
  exact round1_bounds hq0 hq1

/-- Witness for C6: the openssl row of the fixture report has share 90,
inside the bounds. -/
theorem riskShare_bounds_witness :
    (∀ f ∈ [cxFindingA, cxFindingB], 0 ≤ cvssToNumber f.cvssv3_score) ∧
    (⟨"openssl", 1, 0, 1, 90⟩ : ComponentAnalysis) ∈
      getTopRiskyComponents [cxFindingA, cxFindingB] 5 ∧
    (0 ≤ (90:ℚ) ∧ (90:ℚ) ≤ 100) := by
  have hpos : ∀ f ∈ [cxFindingA, cxFindingB],
      0 ≤ cvssToNumber f.cvssv3_score := by
    intro f hf
    simp only [List.mem_cons, List.mem_singleton, List.not_mem_nil,
      or_false] at hf
    rcases hf with rfl | rfl
    · norm_num [cvssToNumber, cxFindingA]
    · norm_num [cvssToNumber, cxFindingB]
  have hmem : (⟨"openssl", 1, 0, 1, 90⟩ : ComponentAnalysis) ∈
      getTopRiskyComponents [cxFindingA, cxFindingB] 5 := by
    rw [cx_topRisky_eval]
    exact List.mem_cons_self _ _
  refine ⟨hpos, hmem, ?_⟩
  exact (riskShare_bounds [cxFindingA, cxFindingB] 5 hpos _ hmem).1

/-! ### Paginator correctness (C4) -/

/-- An empty page contributes nothing, so the guarded push is a plain
concatenation. -/
theorem append_if_pos (acc rs : List Json) :
    (if 0 < rs.length then acc ++ rs else acc) = acc ++ rs := by
  cases rs <;> simp

/-- The fetch loop follows a well-formed chain page by page: it returns
the accumulated records extended with every page's records in order, and
the transport log extended with exactly the chain's URLs. -/
theorem fetchAllGo_chain (srv : String → Option Payload) :
    ∀ (us : List String) (pages : List Payload) (u : String) (fuel : ℕ)
      (acc : List Json) (called : List String),
      chainOk srv (u :: us) pages → us.length < fuel →
      fetchAllGo srv fuel u acc called =
        some (acc ++ (pages.map pageRecords).flatten, called ++ u :: us) := by
  intro us
  induction us with
  | nil =>
    intro pages u fuel acc called hch hfuel
    match pages, hch with
    | [p], ⟨hsrv, hnext⟩ =>
      cases fuel with
      | zero => omega
      | succ f =>
        simp only [fetchAllGo, hsrv, hnext, append_if_pos, List.map_cons,
          List.map_nil, List.flatten_cons, List.flatten_nil,
          List.append_nil]
  | cons u2 us2 ih =>
    intro pages u fuel acc called hch hfuel
    match pages, hch with
    | p :: ps, ⟨hsrv, hnext, hch2⟩ =>
      cases fuel with
      | zero => simp at hfuel
      | succ f =>
        have hf2 : us2.length < f := by
          simp only [List.length_cons] at hfuel
          omega
        have hrec := ih ps u2 f (acc ++ pageRecords p) (called ++ [u])
          hch2 hf2
        simp only [fetchAllGo, hsrv, hnext, append_if_pos]
        rw [hrec]
        simp [List.append_assoc]

/-- C4: over any well-formed paginated response sequence — envelope pages
chained by their next links, a bare array as the degenerate single page —
`defectDojoFetchAll` returns the concatenation of every page's records in
server page order and contacts exactly the chain's URLs, issuing no call
after the page whose next link is null or absent. -/
theorem fetchAll_pagination (srv : String → Option Payload) (u : String)
    (us : List String) (pages : List Payload) (fuel : ℕ)
    (hch : chainOk srv (u :: us) pages) (hfuel : us.length < fuel) :
    defectDojoFetchAll srv fuel u =
      some ((pages.map pageRecords).flatten, u :: us) := by
  have h := fetchAllGo_chain srv us pages u fuel [] [] hch hfuel
  simpa [defectDojoFetchAll] using h

/-- A synthetic upstream: three chained envelope pages and a bare-array
endpoint. -/
def w4Srv : String → Option Payload := fun url =>
  if url = "findings/?page=1" then
    some (Payload.env [Json.num 1, Json.num 2] (some "findings/?page=2"))
  else if url = "findings/?page=2" then
    some (Payload.env [Json.num 3] (some "findings/?page=3"))
  else if url = "findings/?page=3" then
    some (Payload.env [Json.num 4] none)
  else if url = "tools/" then
    some (Payload.bare [Json.num 5])
  else none

/-- Witness for C4: the 3-page chain yields all records in order with
exactly three calls, and the bare-array endpoint yields its records with
one call. -/
theorem fetchAll_pagination_witness :
    (chainOk w4Srv ["findings/?page=1", "findings/?page=2", "findings/?page=3"]
        [Payload.env [Json.num 1, Json.num 2] (some "findings/?page=2"),
         Payload.env [Json.num 3] (some "findings/?page=3"),
         Payload.env [Json.num 4] none] ∧ (2:ℕ) < 9) ∧
    defectDojoFetchAll w4Srv 9 "findings/?page=1" =
      some ([Json.num 1, Json.num 2, Json.num 3, Json.num 4],
        ["findings/?page=1", "findings/?page=2", "findings/?page=3"]) ∧
    defectDojoFetchAll w4Srv 9 "tools/" =
      some ([Json.num 5], ["tools/"]) := by
  have hch : chainOk w4Srv
      ["findings/?page=1", "findings/?page=2", "findings/?page=3"]
      [Payload.env [Json.num 1, Json.num 2] (some "findings/?page=2"),
       Payload.env [Json.num 3] (some "findings/?page=3"),
       Payload.env [Json.num 4] none] :=
    ⟨rfl, rfl, rfl, rfl, rfl, rfl⟩
  have hbare : chainOk w4Srv ["tools/"] [Payload.bare [Json.num 5]] :=
    ⟨rfl, rfl⟩
  refine ⟨⟨hch, by omega⟩, ?_, ?_⟩
  · exact fetchAll_pagination w4Srv _ _ _ 9 hch (by decide)
  · exact fetchAll_pagination w4Srv _ _ _ 9 hbare (by decide)

/-! ### Resolver staging (C3) -/

/-- The static stage of `getProductInfoByName`: the first table entry whose
lower-cased key or normalized value name equals the normalized input. -/
def staticStageInfo (name : String) : Option IdName :=
  (PRODUCT_MAP.find? (fun p => lowerS p.1 = normalizeName name ||
    normalizeName p.2.name = normalizeName name)).map (fun p => p.2)

/-- The live stage of `getProductInfoByName`: the first product of the full
fetched list whose normalized name or stringified id equals the input. -/
def apiStageInfo (ps : List IdName) (name : String) : Option IdName :=
  (ps.find? (fun p => normalizeName p.name = normalizeName name ||
    idMatchesString p.id (normalizeName name))).map (fun p => ⟨p.id, p.name⟩)

/-- The static stage of `getProductIDByName`: exact lower-cased key or
value-name equality. -/
def staticStageID (name : String) : Option ℚ :=
  (PRODUCT_MAP.find? (fun p => p.1 = lowerS (jsTrim name) ||
    lowerS p.2.name = lowerS (jsTrim name))).map (fun p => p.2.id)

/-- The live stage of `getProductIDByName`: the first product passing the
case-insensitive contains filter. -/
def apiStageID (ps : List IdName) (name : String) : Option ℚ :=
  ((ps.filter (fun p => containsCI p.name (lowerS (jsTrim name)))).head?).map
    (fun p => p.id)

/-- C3 counterexample: the static table holds id 3 (MCLS), yet resolving
the numeric input `3` queries the API and fails when the API has nothing —
there is no numeric-id stage against the static table; and an API product
whose name merely contains the input (`foobar` in `Foobar Platform`) is
not found by `getProductInfoByName` — its live stage is an exact
normalized match over the full product list, not a contains filter. -/
theorem resolver_stages_cx :
    PRODUCT_MAP.any (fun p => p.2.id = 3) = true ∧
    getProductInfoByName (some []) "3" = ⟨none, true⟩ ∧
    containsCI "Foobar Platform" "foobar" = true ∧
    getProductInfoByName (some [⟨100, "Foobar Platform"⟩]) "foobar" =
      ⟨none, true⟩ := by
  exact ⟨by decide, by decide, by decide, by decide⟩

/-- C3 amended: resolution is two stages, first match winning. For
`getProductInfoByName`: (1) the normalized input against the lower-cased
static keys and normalized static value names, answered without any
network call; (2) otherwise a fetch of the full product list, taking the
first entry matching by exact normalized name or stringified numeric id —
numeric ids are matched only there. For `getProductIDByName`: (1) exact
lower-cased comparison against static keys and value names; (2) a live
case-insensitive contains query, taking the first match. `NotFound` is
returned only when both stages fail; a name found in the static table
never causes a network call (spec examples: `MCLS` resolves statically
with no API data at all, an unknown name falls through both stages). -/
theorem resolver_two_stages (api : List IdName) (name : String) :
    (∀ p, staticStageInfo name = some p →
      getProductInfoByName (some api) name = ⟨some p, false⟩ ∧
      (getProductInfoByName none name).networkUsed = false) ∧
    (staticStageInfo name = none →
      getProductInfoByName (some api) name = ⟨apiStageInfo api name, true⟩) ∧
    (∀ q, staticStageID name = some q →
      getProductIDByName (some api) name = (some q, false)) ∧
    (staticStageID name = none →
      getProductIDByName (some api) name = (apiStageID api name, true)) ∧
    getProductInfoByName none "MCLS" = ⟨some ⟨3, "MCLS"⟩, false⟩ ∧
    getProductInfoByName (some [])
      "totally-unknown-product-xyz" = ⟨none, true⟩ := by
  refine ⟨?_, ?_, ?_, ?_, by decide, by decide⟩
  · intro p hp
    unfold staticStageInfo at hp
    simp only [getProductInfoByName]
    cases hfind : PRODUCT_MAP.find? (fun p => lowerS p.1 = normalizeName name ||
        normalizeName p.2.name = normalizeName name) with
    | none => rw [hfind] at hp; cases hp
    | some q =>
      rw [hfind] at hp
      injection hp with hp
      subst hp
      exact ⟨rfl, rfl⟩
  · intro hp
    unfold staticStageInfo at hp
    simp only [getProductInfoByName, apiStageInfo]
    cases hfind : PRODUCT_MAP.find? (fun p => lowerS p.1 = normalizeName name ||
        normalizeName p.2.name = normalizeName name) with
    | none => rfl
    | some q => rw [hfind] at hp; cases hp
  · intro q hq
    unfold staticStageID at hq
    simp only [getProductIDByName]
    cases hfind : PRODUCT_MAP.find? (fun p => p.1 = lowerS (jsTrim name) ||
        lowerS p.2.name = lowerS (jsTrim name)) with
    | none => rw [hfind] at hq; cases hq
    | some r =>
      rw [hfind] at hq
      injection hq with hq
      subst hq
      rfl
  · intro hq
    unfold staticStageID at hq
    simp only [getProductIDByName, apiStageID]
    cases hfind : PRODUCT_MAP.find? (fun p => p.1 = lowerS (jsTrim name) ||
        lowerS p.2.name = lowerS (jsTrim name)) with
    | some r => rw [hfind] at hq; cases hq
    | none =>
      cases hfilter : api.filter
          (fun p => containsCI p.name (lowerS (jsTrim name))) with
      | nil => rfl
      | cons p rest => rfl

/-- Witness for C3 amended: the static stage answers `MCLS` without
touching the supplied API data, and a name missing from the table goes to
the live stage. -/
theorem resolver_two_stages_witness :
    staticStageInfo "MCLS" = some ⟨3, "MCLS"⟩ ∧
    getProductInfoByName (some [⟨77, "Other"⟩]) "MCLS" =
      ⟨some ⟨3, "MCLS"⟩, false⟩ ∧
    staticStageID "foobar" = none ∧
    getProductIDByName (some [⟨100, "Foobar Platform"⟩]) "foobar" =
      (some 100, true) := by
  have h1 : staticStageInfo "MCLS" = some ⟨3, "MCLS"⟩ := by decide
  have h2 : staticStageID "foobar" = none := by decide
  refine ⟨h1, ?_, h2, ?_⟩
  · exact ((resolver_two_stages [⟨77, "Other"⟩] "MCLS").1 _ h1).1
  · have h3 := (resolver_two_stages [⟨100, "Foobar Platform"⟩] "foobar").2.2.2.1 h2
    rw [h3]
    decide

/-! ### Per-product ranking (C7) -/

/-- A finding filed under product `Zeta`, encountered first. -/
def c7Zeta : Finding :=
  ⟨1, "t1", "High", "", none, true, none, none, none,
   some (TestOrId.obj ⟨1, none,
     some (EngOrId.eng ⟨1, "e1", some (ProdOrId.obj ⟨50, "Zeta"⟩), none⟩)⟩),
   none, none⟩

/-- A finding filed under product `Alpha`, encountered second. -/
def c7Alpha : Finding :=
  ⟨2, "t2", "High", "", none, true, none, none, none,
   some (TestOrId.obj ⟨2, none,
     some (EngOrId.eng ⟨2, "e2", some (ProdOrId.obj ⟨51, "Alpha"⟩), none⟩)⟩),
   none, none⟩

/-- C7 counterexample: two products with one finding each, encountered as
`Zeta` then `Alpha`, are ranked `Zeta` first — equal counts keep
first-encounter order, not product-name ascending order. -/
theorem topProducts_tie_order_cx :
    topVulnerableProducts [c7Zeta, c7Alpha] = [("Zeta", 1), ("Alpha", 1)] ∧
    ("Alpha" : String).data < ("Zeta" : String).data ∧
    topVulnerableProducts [c7Zeta, c7Alpha] ≠ [("Alpha", 1), ("Zeta", 1)] := by
  exact ⟨by decide, by decide, by decide⟩

/-- C7 amended: the per-product ranking sorts the grouped totals
descending by finding count with a stable sort and returns the first 5;
products with equal counts keep the order in which their names were first
encountered in the findings collection (no name tie-break), which is
still deterministic for a fixed input. -/
theorem topProducts_ordering (findings : List Finding) :
    topVulnerableProducts findings =
      (List.insertionSort (fun a b => b.2 ≤ a.2)
        (kpiProductTotals findings)).take 5 ∧
    (topVulnerableProducts findings).Pairwise (fun a b => b.2 ≤ a.2) ∧
    (topVulnerableProducts findings).length ≤ 5 ∧
    List.Perm
      (List.insertionSort (fun a b => b.2 ≤ a.2) (kpiProductTotals findings))
      (kpiProductTotals findings) ∧
    (∀ a b : String × ℕ, b.2 ≤ a.2 →
      List.Sublist [a, b] (kpiProductTotals findings) →
      List.Sublist [a, b] (List.insertionSort (fun a b => b.2 ≤ a.2)
        (kpiProductTotals findings))) := by
  haveI : IsTrans (String × ℕ) (fun a b => b.2 ≤ a.2) :=
    ⟨fun _ _ _ hab hbc => le_trans hbc hab⟩
  haveI : IsTotal (String × ℕ) (fun a b => b.2 ≤ a.2) :=
    ⟨fun _ _ => le_total _ _⟩
  refine ⟨rfl, ?_, ?_, List.perm_insertionSort _ _, ?_⟩
  · exact List.Pairwise.sublist (List.take_sublist _ _)
      (List.sorted_insertionSort _ _)
  · exact List.length_take_le _ _
  · intro a b hba hsub
    exact List.pair_sublist_insertionSort hba hsub

/-- Witness for C7 amended: the tied pair of the fixture stays in
first-encounter order through the sort. -/
theorem topProducts_ordering_witness :
    ((1:ℕ) ≤ 1 ∧
      List.Sublist [("Zeta", 1), ("Alpha", 1)]
        (kpiProductTotals [c7Zeta, c7Alpha])) ∧
    List.Sublist [("Zeta", 1), ("Alpha", 1)]
      (List.insertionSort (fun a b => b.2 ≤ a.2)
        (kpiProductTotals [c7Zeta, c7Alpha])) := by
  have hg : kpiProductTotals [c7Zeta, c7Alpha] =
      [("Zeta", 1), ("Alpha", 1)] := by decide
  have hsub : List.Sublist [(("Zeta":String), (1:ℕ)), ("Alpha", 1)]
      (kpiProductTotals [c7Zeta, c7Alpha]) := by
    rw [hg]
  refine ⟨⟨le_refl 1, hsub⟩, ?_⟩
  exact (topProducts_ordering [c7Zeta, c7Alpha]).2.2.2.2
    ("Zeta", 1) ("Alpha", 1) (le_refl 1) hsub

/-! ### Query filter ordering (C8) -/

/-- A low-CVSS finding returned first by the upstream. -/
def c8f1 : Finding :=
  ⟨1, "first", "High", "", none, true, none, none,
   some (CvssVal.ofNum 1), none, none, none⟩

/-- A high-CVSS finding returned second by the upstream. -/
def c8f2 : Finding :=
  ⟨2, "second", "High", "", none, true, none, none,
   some (CvssVal.ofNum 9), none, none, none⟩

/-- C8 counterexample: an upstream response ordered 1 then 9 by CVSS is
emitted unchanged, so the default output is not sorted by CVSS
descending. -/
theorem findings_cvss_order_cx :
    (getFindingsViews "All Products" [] [c8f1, c8f2]).map viewCvssNum =
      [1, 9] ∧
    ¬ cvssSortedDesc (getFindingsViews "All Products" [] [c8f1, c8f2]) := by
  constructor
  · decide
  · intro h
    unfold cvssSortedDesc at h
    have h2 := h
    rw [show getFindingsViews "All Products" [] [c8f1, c8f2] =
        [viewOf "All Products" [] c8f1, viewOf "All Products" [] c8f2]
      from rfl] at h2
    rcases h2 with _ | ⟨hrel, _⟩
    exact absurd hrel (by decide)

/-- Setting a parameter under a different key introduces no occurrence of
the avoided key. -/
theorem setParam_no_key (ps : List (String × String)) (k v bad : String)
    (hps : ∀ p ∈ ps, p.1 ≠ bad) (hk : k ≠ bad) :
    ∀ p ∈ setParam ps k v, p.1 ≠ bad := by
  intro p hp
  unfold setParam at hp
  split_ifs at hp
  · rcases List.mem_map.1 hp with ⟨q, hq, rfl⟩
    by_cases h : q.1 = k
    · simpa [h] using hk
    · simpa [h] using hps q hq
  · rcases List.mem_append.1 hp with h | h
    · exact hps p h
    · rw [List.mem_singleton.1 h]
      exact hk

/-- C8 amended: `getFindings` requests no server-side ordering (the query
it builds never contains an `ordering` parameter) and applies no
client-side sort: the emitted rows are the upstream records projected in
place, so the output order is exactly the upstream response order. -/
theorem getFindings_order (input : GetFindingsInput) (pinfo : Option IdName)
    (reqName : String) (prods : List IdName) :
    (∀ qp, buildFindingsQuery input pinfo = some qp →
      ∀ p ∈ qp, p.1 ≠ "ordering") ∧
    (∀ (results pre post : List Finding) (x : Finding),
      results = pre ++ x :: post →
      getFindingsViews reqName prods results =
        getFindingsViews reqName prods pre ++
          viewOf reqName prods x :: getFindingsViews reqName prods post) ∧
    (∀ results : List Finding,
      (getFindingsViews reqName prods results).length = results.length) := by
  refine ⟨?_, ?_, ?_⟩
  · intro qp hqp
    have hbase : ∀ p ∈ [(("duplicate":String), ("false":String)),
        ("active", if input.active then "true" else "false"),
        ("limit", toString input.limit),
        ("prefetch", "test__test_type,test__engagement__product")],
        p.1 ≠ ("ordering" : String) := by
      intro p hp
      simp only [List.mem_cons, List.not_mem_nil, or_false] at hp
      rcases hp with rfl | rfl | rfl | rfl <;> simp
    simp only [buildFindingsQuery] at hqp
    split at hqp
    · split at hqp
      · cases hqp
      · injection hqp with h
        subst h
        repeat' first
          | exact hbase
          | apply setParam_no_key
          | split
          | decide
    · injection hqp with h
      subst h
      repeat' first
        | exact hbase
        | apply setParam_no_key
        | split
        | decide
  · intro results pre post x h
    subst h
    simp [getFindingsViews]
  · intro results
    simp [getFindingsViews]

/-- Witness for C8 amended: a concrete severity-and-product query carries
no ordering parameter, and a concrete two-record response is emitted in
upstream position. -/
theorem getFindings_order_witness :
    (([c8f1, c8f2] : List Finding) = [] ++ c8f1 :: [c8f2] ∧
      buildFindingsQuery ⟨some "MCLS", some "High", true, 5, none, none, none⟩
          (some ⟨3, "MCLS"⟩) =
        some [("duplicate", "false"), ("active", "true"), ("limit", "5"),
          ("prefetch", "test__test_type,test__engagement__product"),
          ("severity__in", "High"), ("test__engagement__product", "3")]) ∧
    getFindingsViews "All Products" [] [c8f1, c8f2] =
      getFindingsViews "All Products" [] [] ++
        viewOf "All Products" [] c8f1 ::
          getFindingsViews "All Products" [] [c8f2] ∧
    (∀ p ∈ [(("duplicate":String), ("false":String)), ("active", "true"),
        ("limit", "5"),
        ("prefetch", "test__test_type,test__engagement__product"),
        ("severity__in", "High"), ("test__engagement__product", "3")],
      p.1 ≠ ("ordering" : String)) := by
  have hq : buildFindingsQuery
      ⟨some "MCLS", some "High", true, 5, none, none, none⟩
      (some ⟨3, "MCLS"⟩) =
      some [("duplicate", "false"), ("active", "true"), ("limit", "5"),
        ("prefetch", "test__test_type,test__engagement__product"),
        ("severity__in", "High"), ("test__engagement__product", "3")] := by
    decide
  refine ⟨⟨rfl, hq⟩, ?_, ?_⟩
  · exact (getFindings_order ⟨some "MCLS", some "High", true, 5, none, none,
      none⟩ (some ⟨3, "MCLS"⟩) "All Products" []).2.1
      [c8f1, c8f2] [] [c8f2] c8f1 rfl
  · exact (getFindings_order ⟨some "MCLS", some "High", true, 5, none, none,
      none⟩ (some ⟨3, "MCLS"⟩) "All Products" []).1 _ hq

end Studio
